import Mathlib

/-!
Verification development for the gym-gridverse composition and representation
layer: a shallow embedding of `gym_gridverse/envs/factory.py`,
`gym_gridverse/gym.py` and `gym_gridverse/observation.py`, together with
spec-modelled interfaces for the external collaborators those modules use
(grids, agents, actions, reset functions, rule implementations and the
representation registry), and theorems about the embedded code.
-/

namespace GV

/-- Shape of a grid, as in `gym_gridverse.geometry.Shape` (used by the
factory as `Shape(7, 7)` and read off states as `state.grid.shape`). -/
structure Shape where
  height : Nat
  width : Nat
deriving DecidableEq

/-- Modelled from the spec: the concrete grid data structure is an external
collaborator (out of scope); only its `shape` attribute and its equality
relation are used by the code under study.  The `data` payload keeps
distinct grids distinguishable. -/
structure Grid where
  shape : Shape
  data : Nat
deriving DecidableEq

/-- Modelled from the spec: the concrete agent data structure is an external
collaborator; only its equality relation is used by the code under study. -/
structure Agent where
  y : Nat
  x : Nat
  orientation : Nat
deriving DecidableEq

/-- The raw state object: a grid plus an agent, as used by the factory
(`state.grid.shape`) and by the state equality test. -/
structure State where
  grid : Grid
  agent : Agent
deriving DecidableEq

/-- `Observation` from `gym_gridverse/observation.py`: holds a grid and an
agent. -/
structure Observation where
  grid : Grid
  agent : Agent
deriving DecidableEq

/-- Modelled from the spec: the internal `Action` enum is an external
collaborator with a fixed declared enumeration order; only the identity of
each member matters to the code under study. -/
structure Action where
  val : Nat
deriving DecidableEq

/-- Modelled from the spec: `list(Action)` enumerates the Action enum
members in their fixed declared order; the exact member count is not fixed
by the code under study, so a representative count is used. -/
def Action.all : List Action :=
  (List.range 8).map Action.mk

/-- Modelled from the spec: grid-object kinds (`Wall`, `Floor`, ...) are
external collaborators; the factory only lists them inside space
contracts. -/
inductive GridObjectType where
  | Wall
  | Floor
  | Goal
  | Door
  | Key
  | MovingObstacle
deriving DecidableEq

/-- Modelled from the spec: colors are external collaborators; the factory
only lists them inside space contracts. -/
inductive Color where
  | NONE
  | YELLOW
deriving DecidableEq

/-- Modelled from the spec: `StateSpace(grid_shape, objects, colors)` holds
the legal grid shape and the permitted object kinds and colors. -/
structure StateSpace where
  grid_shape : Shape
  objects : List GridObjectType
  colors : List Color
deriving DecidableEq

/-- Modelled from the spec: `ObservationSpace(shape, objects, colors)` holds
the fixed observation window shape and the permitted object kinds and
colors. -/
structure ObservationSpace where
  shape : Shape
  objects : List GridObjectType
  colors : List Color
deriving DecidableEq

/-- Modelled from the spec: `ActionSpace(actions)` holds the ordered list of
permitted actions in the fixed, declared enumeration order. -/
structure ActionSpace where
  actions : List Action
deriving DecidableEq

/-- Modelled from the spec: `num_actions` is the number of actions in the
action space. -/
def ActionSpace.num_actions (sp : ActionSpace) : Nat :=
  sp.actions.length

/-- Modelled from the spec: `int_to_action` maps an external integer to the
internal Action at that index of the declared enumeration order; an
integer outside the range is an error, modelled as `none`. -/
def ActionSpace.int_to_action (sp : ActionSpace) (i : Nat) : Option Action :=
  sp.actions.get? i

/-- Modelled from the spec: `DomainSpace` is the immutable triple of space
contracts bound at construction time. -/
structure DomainSpace where
  state_space : StateSpace
  action_space : ActionSpace
  observation_space : ObservationSpace
deriving DecidableEq

/-- A transition rule: `state × action → state` (the Python rules mutate an
isolated copy in place; functionally, they return the next state). -/
def TransitionFunction : Type :=
  State → Action → State

/-- A reward rule: `state × action × next_state → scalar`. -/
def RewardFunction : Type :=
  State → Action → State → ℚ

/-- A termination predicate: `state × action × next_state → boolean`. -/
def TerminatingFunction : Type :=
  State → Action → State → Bool

/-- Modelled from the spec: a reset function is a stochastic zero-argument
sampler of fresh states; it is embedded as a stream indexed by the draw
number, so that `reset n` is the state produced by the `(n+1)`-th
invocation. -/
def ResetFunction : Type :=
  Nat → State

/-- Modelled from the spec: `transition_functions.chain` (module not under
`src/`) applies each transition rule in sequence order, each rule consuming
the evolving next state and the original action. -/
def chain (transition_functions : List TransitionFunction)
    (state : State) (action : Action) : State :=
  transition_functions.foldl (fun st f => f st action) state

/-- The composed reward from `create_env` in `factory.py`:
`sum(r(state, action, next_state) for r in rewards)`; Python `sum` folds
the generator from the left starting at `0`. -/
def create_env_reward (rewards : List RewardFunction)
    (state : State) (action : Action) (next_state : State) : ℚ :=
  rewards.foldl (fun acc r => acc + r state action next_state) 0

/-- The composed termination from `create_env` in `factory.py`:
`any(t(state, action, next_state) for t in terminations)`. -/
def create_env_termination (terminations : List TerminatingFunction)
    (state : State) (action : Action) (next_state : State) : Bool :=
  terminations.any (fun t => t state action next_state)

/-- Modelled from the spec: `minigrid_observation` (module not under
`src/`) computes the single observation of a state, shaped by the
observation space contract. -/
def minigrid_observation (observation_space : ObservationSpace)
    (state : State) : Observation :=
  { grid := { shape := observation_space.shape, data := state.grid.data },
    agent := state.agent }

/-- Modelled from the spec: the Inner Environment (`GridWorld`, not under
`src/`) owns the current state, the domain space, the composed step
pieces and a reset function. -/
structure InnerEnv where
  state : Option State
  domain_space : DomainSpace
  reset : ResetFunction
  transition : State → Action → State
  observation : State → Observation
  reward : State → Action → State → ℚ
  termination : State → Action → State → Bool

/-- The `state_space` accessor of the inner environment, as used by
`gym.py` (`self.outer_env.inner_env.state_space`). -/
def InnerEnv.state_space (env : InnerEnv) : StateSpace :=
  env.domain_space.state_space

/-- The `observation_space` accessor of the inner environment, as used by
`gym.py`. -/
def InnerEnv.observation_space (env : InnerEnv) : ObservationSpace :=
  env.domain_space.observation_space

/-- Modelled from the spec: the Composition Engine step of §4.1 — apply the
composed transition to an isolated copy of the state, then compute reward
and done on `(state, action, next_state)`. -/
def InnerEnv.step (env : InnerEnv) (state : State) (action : Action) :
    State × ℚ × Bool :=
  let next_state := env.transition state action
  (next_state, env.reward state action next_state,
    env.termination state action next_state)

/-- `create_env` from `factory.py`: chains the transition functions in
order, sums the rewards, ORs the terminations, and builds the observation
function from the observation space contract. -/
def create_env (domain_space : DomainSpace) (reset : ResetFunction)
    (transition_functions : List TransitionFunction)
    (rewards : List RewardFunction)
    (terminations : List TerminatingFunction) : InnerEnv :=
  { state := none
    domain_space := domain_space
    reset := reset
    transition := chain transition_functions
    observation := minigrid_observation domain_space.observation_space
    reward := create_env_reward rewards
    termination := create_env_termination terminations }

/-- Modelled from the spec: `update_agent` (module not under `src/`) is a
concrete transition rule, an external collaborator; a representative pure
function of state and action is used. -/
def update_agent : TransitionFunction :=
  fun s a =>
    { s with agent := { s.agent with x := s.agent.x + a.val } }

/-- Modelled from the spec: `step_moving_obstacles` (module not under
`src/`) is a concrete transition rule, an external collaborator. -/
def step_moving_obstacles : TransitionFunction :=
  fun s _ =>
    { s with grid := { s.grid with data := s.grid.data + 1 } }

/-- Modelled from the spec: `actuate_door` (module not under `src/`) is a
concrete transition rule, an external collaborator. -/
def actuate_door : TransitionFunction :=
  fun s _ => s

/-- Modelled from the spec: `pickup_mechanics` (module not under `src/`) is
a concrete transition rule, an external collaborator. -/
def pickup_mechanics : TransitionFunction :=
  fun s _ => s

/-- Modelled from the spec: `reward_functions.reach_goal` (module not under
`src/`) is a concrete reward rule yielding the goal reward on reaching the
goal. -/
def reach_goal : RewardFunction :=
  fun _ _ ns => if ns.agent.x = 0 ∧ ns.agent.y = 0 then 1 else 0

/-- Modelled from the spec: `reward_functions.bump_moving_obstacle` (module
not under `src/`) is a concrete reward rule, an external collaborator. -/
def bump_moving_obstacle : RewardFunction :=
  fun s _ ns => if s.agent = ns.agent then 0 else -1

/-- Modelled from the spec: `reward_functions.bump_into_wall` (module not
under `src/`) is a concrete reward rule, an external collaborator. -/
def bump_into_wall : RewardFunction :=
  fun _ _ ns => if ns.agent.x = 0 then -1 else 0

/-- Modelled from the spec: `terminating_functions.reach_goal` (module not
under `src/`) is a concrete termination predicate. -/
def reach_goal_terminating : TerminatingFunction :=
  fun _ _ ns => decide (ns.agent.x = 0 ∧ ns.agent.y = 0)

/-- Modelled from the spec: `terminating_functions.bump_moving_obstacle`
(module not under `src/`) is a concrete termination predicate. -/
def bump_moving_obstacle_terminating : TerminatingFunction :=
  fun s _ ns => decide (s.agent ≠ ns.agent)

/-- Modelled from the spec: `terminating_functions.bump_into_wall` (module
not under `src/`) is a concrete termination predicate. -/
def bump_into_wall_terminating : TerminatingFunction :=
  fun _ _ ns => decide (ns.agent.x = 0)

/-- Modelled from the spec: `reset_functions.reset_empty(h, w, random_pos)`
(module not under `src/`) samples a fresh state whose grid has shape
`(h, w)`; draws are indexed by the draw number. -/
def reset_empty (h w : Nat) (random_pos : Bool) : ResetFunction :=
  fun n =>
    { grid := { shape := { height := h, width := w }, data := n }
      agent :=
        { y := 1, x := if random_pos then n % w else 1, orientation := 0 } }

/-- Modelled from the spec: `reset_functions.reset_rooms(h, w, layout)`
(module not under `src/`) samples a fresh state whose grid has shape
`(h, w)`. -/
def reset_rooms (h w : Nat) (layout : Nat × Nat) : ResetFunction :=
  fun n =>
    { grid := { shape := { height := h, width := w }, data := n + layout.1 }
      agent := { y := 1, x := 1, orientation := 0 } }

/-- Modelled from the spec:
`reset_functions.reset_dynamic_obstacles(h, w, num_obstacles, random_pos)`
(module not under `src/`) samples a fresh state whose grid has shape
`(h, w)`. -/
def reset_dynamic_obstacles (h w num_obstacles : Nat) (random_pos : Bool) :
    ResetFunction :=
  fun n =>
    { grid :=
        { shape := { height := h, width := w }, data := n + num_obstacles }
      agent :=
        { y := 1, x := if random_pos then n % w else 1, orientation := 0 } }

/-- Modelled from the spec: `reset_functions.reset_keydoor(h, w)` (module
not under `src/`) samples a fresh state whose grid has shape `(h, w)`. -/
def reset_keydoor (h w : Nat) : ResetFunction :=
  fun n =>
    { grid := { shape := { height := h, width := w }, data := n }
      agent := { y := 1, x := 1, orientation := 0 } }

/-- Drops the first draw of a reset stream: the factory invokes the reset
function once at construction time (`reset_func().grid.shape`), so the
environment built from it sees the later draws. -/
def consume_one_draw (reset : ResetFunction) : ResetFunction :=
  fun n => reset (n + 1)

/-- `plain_navigation_task` from `factory.py`: one `update_agent`
transition, one `reach_goal` reward, one `reach_goal` termination; the
state space grid shape is read off one sample of the reset function. -/
def plain_navigation_task (reset_func : ResetFunction) : InnerEnv :=
  let transitions : List TransitionFunction := [update_agent]
  let rewards : List RewardFunction := [reach_goal]
  let terminations : List TerminatingFunction := [reach_goal_terminating]
  let grid_shape := (reset_func 0).grid.shape
  let objects : List GridObjectType := [.Wall, .Floor, .Goal]
  let colors : List Color := [.NONE]
  let state_space : StateSpace :=
    { grid_shape := grid_shape, objects := objects, colors := colors }
  let observation_shape : Shape := { height := 7, width := 7 }
  let observation_space : ObservationSpace :=
    { shape := observation_shape, objects := objects, colors := colors }
  let action_space : ActionSpace := { actions := Action.all }
  let domain_space : DomainSpace :=
    { state_space := state_space, action_space := action_space
      observation_space := observation_space }
  create_env domain_space (consume_one_draw reset_func) transitions rewards
    terminations

/-- `env_dynamic_obstacle` from `factory.py`. -/
def env_dynamic_obstacle (size : Nat) (random_pos : Bool)
    (num_obstacles : Nat) : InnerEnv :=
  let reset_func :=
    reset_dynamic_obstacles (size + 2) (size + 2) num_obstacles random_pos
  let transitions : List TransitionFunction :=
    [update_agent, step_moving_obstacles]
  let rewards : List RewardFunction :=
    [reach_goal, bump_moving_obstacle, bump_into_wall]
  let terminations : List TerminatingFunction :=
    [reach_goal_terminating, bump_moving_obstacle_terminating,
      bump_into_wall_terminating]
  let grid_shape := (reset_func 0).grid.shape
  let objects : List GridObjectType := [.Wall, .Floor, .Goal, .MovingObstacle]
  let colors : List Color := [.NONE]
  let state_space : StateSpace :=
    { grid_shape := grid_shape, objects := objects, colors := colors }
  let observation_space : ObservationSpace :=
    { shape := { height := 7, width := 7 }, objects := objects
      colors := colors }
  let action_space : ActionSpace := { actions := Action.all }
  let domain_space : DomainSpace :=
    { state_space := state_space, action_space := action_space
      observation_space := observation_space }
  create_env domain_space (consume_one_draw reset_func) transitions rewards
    terminations

/-- `env_empty` from `factory.py`: a `plain_navigation_task` over
`reset_empty(size + 2, size + 2, random_pos)`. -/
def env_empty (size : Nat) (random_pos : Bool) : InnerEnv :=
  plain_navigation_task (reset_empty (size + 2) (size + 2) random_pos)

/-- `env_four_room` from `factory.py`: a `plain_navigation_task` over
`reset_rooms(19, 19, layout=(2, 2))`. -/
def env_four_room : InnerEnv :=
  plain_navigation_task (reset_rooms 19 19 (2, 2))

/-- `gym_keydoor_env` from `factory.py`. -/
def gym_keydoor_env (size : Nat) : InnerEnv :=
  let reset := reset_keydoor (size + 2) (size + 2)
  let transitions : List TransitionFunction :=
    [update_agent, actuate_door, pickup_mechanics]
  let rewards : List RewardFunction := [reach_goal]
  let terminations : List TerminatingFunction := [reach_goal_terminating]
  let grid_shape := (reset 0).grid.shape
  let objects : List GridObjectType := [.Wall, .Floor, .Goal, .Door, .Key]
  let colors : List Color := [.NONE, .YELLOW]
  let observation_shape : Shape := { height := 7, width := 7 }
  let state_space : StateSpace :=
    { grid_shape := grid_shape, objects := objects, colors := colors }
  let observation_space : ObservationSpace :=
    { shape := observation_shape, objects := objects, colors := colors }
  let action_space : ActionSpace := { actions := Action.all }
  let domain_space : DomainSpace :=
    { state_space := state_space, action_space := action_space
      observation_space := observation_space }
  create_env domain_space (consume_one_draw reset) transitions rewards
    terminations

/-- `STRING_TO_GYM_CONSTRUCTOR` from `factory.py`: the name-to-builder
registry, in source order. -/
def STRING_TO_GYM_CONSTRUCTOR : List (String × (Unit → InnerEnv)) :=
  [ ("Empty-5x5-v0", fun _ => env_empty 5 false),
    ("Empty-Random-5x5-v0", fun _ => env_empty 5 true),
    ("Empty-6x6-v0", fun _ => env_empty 6 false),
    ("Empty-Random-6x6-v0", fun _ => env_empty 6 true),
    ("Empty-8x8-v0", fun _ => env_empty 8 false),
    ("Empty-16x16-v0", fun _ => env_empty 16 false),
    ("FourRooms-v0", fun _ => env_four_room),
    ("Dynamic-Obstacles-5x5-v0", fun _ => env_dynamic_obstacle 5 false 2),
    ("Dynamic-Obstacles-Random-5x5-v0",
      fun _ => env_dynamic_obstacle 5 true 2),
    ("Dynamic-Obstacles-6x6-v0", fun _ => env_dynamic_obstacle 6 false 3),
    ("Dynamic-Obstacles-Random-6x6-v0",
      fun _ => env_dynamic_obstacle 6 true 3),
    ("Dynamic-Obstacles-8x8-v0", fun _ => env_dynamic_obstacle 8 false 4),
    ("Dynamic-Obstacles-16x16-v0", fun _ => env_dynamic_obstacle 16 false 8),
    ("KeyDoor-5x5-v0", fun _ => gym_keydoor_env 5),
    ("KeyDoor-6x6-v0", fun _ => gym_keydoor_env 6),
    ("KeyDoor-8x8-v0", fun _ => gym_keydoor_env 8),
    ("KeyDoor-16x16-v0", fun _ => gym_keydoor_env 16) ]

/-- The registry keys, enumerable for discoverability (the manual-control
script prints `list(STRING_TO_GYM_CONSTRUCTOR.keys())` in its help text). -/
def registry_keys : List String :=
  STRING_TO_GYM_CONSTRUCTOR.map Prod.fst

/-- `env_from_descr` from `factory.py`: look the name up in the registry and
call the builder; a missing key raises
`ValueError(f"No environment named ... is implemented")`, modelled as
`Except.error` carrying that message. -/
def env_from_descr (descr : String) : Except String InnerEnv :=
  match (STRING_TO_GYM_CONSTRUCTOR.find? (fun p => p.1 == descr)) with
  | some p => .ok (p.2 ())
  | none =>
      .error ("No environment named " ++ descr ++ " is implemented")

theorem foldl_add_shift (f : RewardFunction → ℚ) (l : List RewardFunction)
    (init : ℚ) :
    l.foldl (fun acc r => acc + f r) init
      = init + l.foldl (fun acc r => acc + f r) 0 := by
  induction l generalizing init with
  | nil => simp
  | cons r rs ih =>
      rw [List.foldl_cons, List.foldl_cons, ih, ih (0 + f r)]
      ring

theorem create_env_reward_cons (r : RewardFunction)
    (rs : List RewardFunction) (s : State) (a : Action) (ns : State) :
    create_env_reward (r :: rs) s a ns
      = r s a ns + create_env_reward rs s a ns := by
  simp only [create_env_reward, List.foldl_cons, zero_add]
  exact foldl_add_shift (fun r => r s a ns) rs (r s a ns)

/-- C1: the reward produced by the composed step function built by
`create_env` equals the arithmetic sum of each reward rule evaluated
independently on the same `(state, action, next_state)` triple, and the
empty reward list yields reward 0. -/
theorem create_env_reward_additive (rewards : List RewardFunction)
    (state : State) (action : Action) (next_state : State) :
    create_env_reward rewards state action next_state
        = (rewards.map (fun r => r state action next_state)).sum
      ∧ create_env_reward [] state action next_state = 0 := by
  constructor
  · induction rewards with
    | nil => simp [create_env_reward]
    | cons r rs ih => rw [create_env_reward_cons, List.map_cons, List.sum_cons, ih]
  · simp [create_env_reward]

/-- C2: the done flag produced by the composed step function built by
`create_env` is true iff at least one termination predicate is true on
`(state, action, next_state)`, and the empty predicate list always yields
false. -/
theorem create_env_termination_or (terminations : List TerminatingFunction)
    (state : State) (action : Action) (next_state : State) :
    (create_env_termination terminations state action next_state = true
        ↔ ∃ t ∈ terminations, t state action next_state = true)
      ∧ create_env_termination [] state action next_state = false := by
  constructor
  · simp [create_env_termination, List.any_eq_true]
  · simp [create_env_termination]

/-- Modelled from the spec: a numpy integer array, embedded as a shape plus
flat data. -/
structure Ndarray where
  shape : List Nat
  data : List Int
deriving DecidableEq

/-- `np.zeros_like(v)`: an array of the same shape as `v` with every entry
zero. -/
def zeros_like (v : Ndarray) : Ndarray :=
  { shape := v.shape, data := v.data.map (fun _ => 0) }

/-- `gym.spaces.Box(low, high)`: elementwise integer bounds. -/
structure GymBox where
  low : Ndarray
  high : Ndarray
deriving DecidableEq

/-- `outer_space_to_gym_space` from `gym.py`: for each named bound array
`v` of the representation space, a box with `low = np.zeros_like(v)` and
`high = v`, collected into a `gym.spaces.Dict` (an ordered association
list here). -/
def outer_space_to_gym_space (space : List (String × Ndarray)) :
    List (String × GymBox) :=
  space.map (fun kv => (kv.1, { low := zeros_like kv.2, high := kv.2 }))

/-- Modelled from the spec: a Representation owns a space descriptor
(named bound arrays) derived purely from its Space Contract at
construction time. -/
structure Representation where
  space : List (String × Ndarray)
deriving DecidableEq

/-- Modelled from the spec: `create_state_representation(name, space)`
(module not under `src/`) builds a Representation purely from the name and
the state space contract; a representative pure function is used. -/
def create_state_representation (name : String)
    (state_space : StateSpace) : Representation :=
  { space :=
      [ ("grid",
          { shape :=
              [state_space.grid_shape.height, state_space.grid_shape.width]
            data :=
              List.replicate
                (state_space.grid_shape.height * state_space.grid_shape.width)
                (state_space.objects.length : Int) }),
        ("agent",
          { shape := [name.length + 1]
            data :=
              List.replicate (name.length + 1)
                (state_space.colors.length : Int) }) ] }

/-- Modelled from the spec: `create_observation_representation(name, space)`
(module not under `src/`) builds a Representation purely from the name and
the observation space contract; a representative pure function is used. -/
def create_observation_representation (name : String)
    (observation_space : ObservationSpace) : Representation :=
  { space :=
      [ ("grid",
          { shape :=
              [observation_space.shape.height, observation_space.shape.width]
            data :=
              List.replicate
                (observation_space.shape.height
                  * observation_space.shape.width)
                (observation_space.objects.length : Int) }),
        ("agent",
          { shape := [name.length + 1]
            data :=
              List.replicate (name.length + 1)
                (observation_space.colors.length : Int) }) ] }

/-- Modelled from the spec §4.4: the Outer Environment pairs one Inner
Environment with optional state and observation Representations. -/
structure OuterEnv where
  inner_env : InnerEnv
  state_rep : Option Representation
  observation_rep : Option Representation

/-- Modelled from the spec: `outer_env.action_space` exposes the inner
environment's action space. -/
def OuterEnv.action_space (o : OuterEnv) : ActionSpace :=
  o.inner_env.domain_space.action_space

/-- Modelled from the spec: `OuterEnv.step` delegates to the inner step. -/
def OuterEnv.step (o : OuterEnv) (state : State) (action : Action) :
    State × ℚ × Bool :=
  o.inner_env.step state action

/-- `gym.spaces.Discrete(n)`: the dense integer range `[0, n)`. -/
structure GymDiscrete where
  n : Nat
deriving DecidableEq

/-- Membership in a discrete gym space. -/
def GymDiscrete.contains (d : GymDiscrete) (i : Nat) : Bool :=
  decide (i < d.n)

/-- `GymEnvironment` from `gym.py`: the outer environment plus the
advertised gym spaces. -/
structure GymEnvironment where
  outer_env : OuterEnv
  state_space : Option (List (String × GymBox))
  observation_space : Option (List (String × GymBox))
  action_space : GymDiscrete

/-- `GymEnvironment.set_state_representation` from `gym.py`: installs
`create_state_representation(name, inner_env.state_space)` and recomputes
the advertised state space. -/
def GymEnvironment.set_state_representation (g : GymEnvironment)
    (name : String) : GymEnvironment :=
  let rep := create_state_representation name g.outer_env.inner_env.state_space
  { g with
      outer_env := { g.outer_env with state_rep := some rep }
      state_space := some (outer_space_to_gym_space rep.space) }

/-- `GymEnvironment.set_observation_representation` from `gym.py`: installs
`create_observation_representation(name, inner_env.observation_space)` and
recomputes the advertised observation space. -/
def GymEnvironment.set_observation_representation (g : GymEnvironment)
    (name : String) : GymEnvironment :=
  let rep :=
    create_observation_representation name
      g.outer_env.inner_env.observation_space
  { g with
      outer_env := { g.outer_env with observation_rep := some rep }
      observation_space := some (outer_space_to_gym_space rep.space) }

/-- `GymEnvironment.__init__` from `gym.py`: builds the outer environment,
derives the advertised spaces from the installed representations (applying
the optional overrides), and advertises
`gym.spaces.Discrete(num_actions)`. -/
def GymEnvironment.init (constructor : Unit → OuterEnv)
    (state_rep_override : Option String)
    (obs_rep_override : Option String) : GymEnvironment :=
  let outer := constructor ()
  let g0 : GymEnvironment :=
    { outer_env := outer
      state_space :=
        outer.state_rep.map (fun r => outer_space_to_gym_space r.space)
      observation_space :=
        outer.observation_rep.map (fun r => outer_space_to_gym_space r.space)
      action_space := { n := outer.action_space.num_actions } }
  let g1 :=
    match state_rep_override with
    | some nm => g0.set_state_representation nm
    | none => g0
  match obs_rep_override with
  | some nm => g1.set_observation_representation nm
  | none => g1

/-- `GymEnvironment.step` from `gym.py`: translates the external integer
through `action_space.int_to_action` and delegates to the outer (hence
inner) step; an out-of-range integer is an error, modelled as `none`. -/
def GymEnvironment.step (g : GymEnvironment) (state : State)
    (action : Nat) : Option (State × ℚ × Bool) :=
  (g.outer_env.action_space.int_to_action action).map
    (fun a => g.outer_env.step state a)

/-- C3: for every Rule Set whose transition list is empty, stepping the
environment built by `create_env` with any valid action leaves the state
unchanged. -/
theorem empty_transitions_leave_state_unchanged (domain_space : DomainSpace)
    (reset : ResetFunction) (rewards : List RewardFunction)
    (terminations : List TerminatingFunction) (state : State)
    (action : Action) :
    ((create_env domain_space reset [] rewards terminations).step
        state action).1 = state :=
  rfl

/-- C5: requesting an unknown environment name yields an error message
naming the requested value, the valid names are enumerable as
`registry_keys`, and every registered name builds an `InnerEnv`. -/
theorem env_from_descr_registry (descr : String) :
    (descr ∈ registry_keys → ∃ env, env_from_descr descr = .ok env)
    ∧ (descr ∉ registry_keys →
        env_from_descr descr
          = .error ("No environment named " ++ descr ++ " is implemented")) := by
  constructor
  · intro hmem
    have h1 : (STRING_TO_GYM_CONSTRUCTOR.find? (fun p => p.1 == descr)).isSome := by
      rw [List.find?_isSome]
      simp only [registry_keys, List.mem_map] at hmem
      obtain ⟨p, hp, hq⟩ := hmem
      exact ⟨p, hp, by simp [hq]⟩
    obtain ⟨p, hp⟩ := Option.isSome_iff_exists.mp h1
    exact ⟨p.2 (), by simp [env_from_descr, hp]⟩
  · intro hnot
    have h0 : STRING_TO_GYM_CONSTRUCTOR.find? (fun p => p.1 == descr) = none := by
      rw [List.find?_eq_none]
      intro x hx hbeq
      apply hnot
      simp only [registry_keys, List.mem_map]
      exact ⟨x, hx, by simpa using hbeq⟩
    simp [env_from_descr, h0]

/-- Witness for C5 at the registered name `Empty-5x5-v0` and the unknown
name `FooBar`. -/
theorem env_from_descr_registry_witness :
    (∃ env, env_from_descr "Empty-5x5-v0" = .ok env)
    ∧ env_from_descr "FooBar"
        = .error ("No environment named " ++ "FooBar" ++ " is implemented") :=
  ⟨(env_from_descr_registry "Empty-5x5-v0").1 (by decide),
   (env_from_descr_registry "FooBar").2 (by decide)⟩

/-- C8: the factory builders read the state space grid shape off exactly
one sample of the reset function (the first draw), and the resulting
domain space agrees with every later reset exactly when the reset
function's grid shape is constant across draws. -/
theorem grid_shape_inferred_from_one_sample (reset : ResetFunction)
    (size num_obstacles : Nat) (random_pos : Bool) :
    ((plain_navigation_task reset).domain_space.state_space.grid_shape
        = (reset 0).grid.shape)
    ∧ ((∀ n, ((plain_navigation_task reset).reset n).grid.shape
            = (plain_navigation_task reset).domain_space.state_space.grid_shape)
        ↔ ∀ n, (reset n).grid.shape = (reset 0).grid.shape)
    ∧ ((env_dynamic_obstacle size random_pos
          num_obstacles).domain_space.state_space.grid_shape
        = (reset_dynamic_obstacles (size + 2) (size + 2) num_obstacles
            random_pos 0).grid.shape)
    ∧ ((gym_keydoor_env size).domain_space.state_space.grid_shape
        = (reset_keydoor (size + 2) (size + 2) 0).grid.shape) := by
  refine ⟨rfl, ?_, rfl, rfl⟩
  show (∀ n, (reset (n + 1)).grid.shape = (reset 0).grid.shape)
    ↔ ∀ n, (reset n).grid.shape = (reset 0).grid.shape
  constructor
  · intro h n
    cases n with
    | zero => rfl
    | succ m => exact h m
  · intro h n
    exact h (n + 1)

/-- C4: the constructed `GymEnvironment` advertises a discrete action space
of exactly `num_actions` integers; an external integer is accepted by
`step` exactly when it lies in `[0, num_actions)`, and each accepted
integer is translated to the Action at that index of the action space
enumeration before delegating to the inner step. -/
theorem gym_action_space_dense (constructor : Unit → OuterEnv)
    (state : State) (i : Nat) (a : Action) :
    ((GymEnvironment.init constructor none none).action_space.n
        = (constructor ()).action_space.num_actions)
    ∧ ((GymEnvironment.init constructor none none).action_space.contains i
          = true
        ↔ i < (constructor ()).action_space.num_actions)
    ∧ (((GymEnvironment.init constructor none none).step state i).isSome
        ↔ (GymEnvironment.init constructor none none).action_space.contains i
            = true)
    ∧ ((constructor ()).action_space.actions.get? i = some a →
        (GymEnvironment.init constructor none none).step state i
          = some ((constructor ()).inner_env.step state a)) := by
  have hmap : ∀ (o : Option Action) (f : Action → State × ℚ × Bool),
      (o.map f).isSome = o.isSome := by
    intro o f
    cases o <;> rfl
  have hget : ∀ (l : List Action) (j : Nat),
      (l.get? j).isSome = true ↔ j < l.length := by
    intro l j
    induction l generalizing j with
    | nil => cases j <;> simp [List.get?]
    | cons x xs ih =>
        cases j with
        | zero => simp [List.get?]
        | succ m => simpa [List.get?, Nat.succ_lt_succ_iff] using ih m
  refine ⟨rfl, ?_, ?_, ?_⟩
  · show decide (i < (constructor ()).action_space.num_actions) = true ↔ _
    exact decide_eq_true_iff
  · show (Option.map _ ((constructor ()).action_space.actions.get? i)).isSome
        = true ↔ _
    rw [hmap]
    show _ ↔ decide (i < (constructor ()).action_space.num_actions) = true
    rw [decide_eq_true_iff]
    exact hget _ i
  · intro h
    show Option.map _ ((constructor ()).action_space.actions.get? i) = _
    rw [h]
    rfl

/-- A concrete state used by witnesses. -/
def sample_state : State :=
  { grid := { shape := { height := 7, width := 7 }, data := 0 }
    agent := { y := 1, x := 1, orientation := 0 } }

/-- A concrete outer environment used by witnesses. -/
def sample_outer_env : OuterEnv :=
  { inner_env := env_empty 5 false
    state_rep := none
    observation_rep := none }

/-- Witness for C4: external action 0 is translated to the first enumerated
Action and delegated to the inner step. -/
theorem gym_action_space_dense_witness :
    ((sample_outer_env.action_space.actions.get? 0 = some (Action.mk 0))
    ∧ (GymEnvironment.init (fun _ => sample_outer_env) none none).step
        sample_state 0
      = some (sample_outer_env.inner_env.step sample_state (Action.mk 0))) :=
  ⟨rfl,
    (gym_action_space_dense (fun _ => sample_outer_env) sample_state 0
      (Action.mk 0)).2.2.2 rfl⟩

/-- C6: installing a state or observation representation by name builds the
new Representation from the inner environment's corresponding space
contract, recomputes the advertised numeric space, and leaves the Inner
Environment (and every other field of the wrapper) unchanged. -/
theorem set_representation_frame (g : GymEnvironment) (name : String) :
    ((g.set_state_representation name).outer_env.inner_env
        = g.outer_env.inner_env)
    ∧ ((g.set_state_representation name).outer_env.state_rep
        = some (create_state_representation name
            g.outer_env.inner_env.state_space))
    ∧ ((g.set_state_representation name).state_space
        = some (outer_space_to_gym_space
            (create_state_representation name
              g.outer_env.inner_env.state_space).space))
    ∧ ((g.set_state_representation name).outer_env.observation_rep
        = g.outer_env.observation_rep)
    ∧ ((g.set_state_representation name).observation_space
        = g.observation_space)
    ∧ ((g.set_state_representation name).action_space = g.action_space)
    ∧ ((g.set_observation_representation name).outer_env.inner_env
        = g.outer_env.inner_env)
    ∧ ((g.set_observation_representation name).outer_env.observation_rep
        = some (create_observation_representation name
            g.outer_env.inner_env.observation_space))
    ∧ ((g.set_observation_representation name).observation_space
        = some (outer_space_to_gym_space
            (create_observation_representation name
              g.outer_env.inner_env.observation_space).space))
    ∧ ((g.set_observation_representation name).outer_env.state_rep
        = g.outer_env.state_rep)
    ∧ ((g.set_observation_representation name).state_space = g.state_space)
    ∧ ((g.set_observation_representation name).action_space
        = g.action_space) :=
  ⟨rfl, rfl, rfl, rfl, rfl, rfl, rfl, rfl, rfl, rfl, rfl, rfl⟩

/-- C7: installing a representation by name and immediately reinstalling the
same name advertises a numeric space identical to the one advertised
before the second install. -/
theorem representation_swap_idempotent (g : GymEnvironment) (name : String) :
    (((g.set_observation_representation name).set_observation_representation
          name).observation_space
        = (g.set_observation_representation name).observation_space)
    ∧ (((g.set_state_representation name).set_state_representation
          name).state_space
        = (g.set_state_representation name).state_space) :=
  ⟨rfl, rfl⟩

/-- C9: every named array of the advertised gym space has an elementwise
lower bound of exactly zero (`np.zeros_like` of the bound array) and an
upper bound equal to the representation's bound array. -/
theorem gym_space_lower_bound_zero (space : List (String × Ndarray))
    (k : String) (v : Ndarray) (h : (k, v) ∈ space) :
    ∃ box : GymBox, (k, box) ∈ outer_space_to_gym_space space
      ∧ box.high = v
      ∧ box.low.shape = v.shape
      ∧ box.low.data.length = v.data.length
      ∧ ∀ x ∈ box.low.data, x = 0 := by
  refine ⟨{ low := zeros_like v, high := v }, ?_, rfl, rfl,
    by simp [zeros_like], ?_⟩
  · exact List.mem_map.mpr ⟨(k, v), h, rfl⟩
  · intro x hx
    simp only [zeros_like, List.mem_map] at hx
    obtain ⟨y, _, hy⟩ := hx
    exact hy.symm

/-- Witness for C9 at a concrete one-entry representation space with a
nonzero bound array. -/
theorem gym_space_lower_bound_zero_witness :
    ∃ box : GymBox,
      ("grid", box)
          ∈ outer_space_to_gym_space
              [("grid", { shape := [2], data := [5, 7] })]
        ∧ box.high = { shape := [2], data := [5, 7] }
        ∧ box.low.shape = ({ shape := [2], data := [5, 7] } : Ndarray).shape
        ∧ box.low.data.length
            = ({ shape := [2], data := [5, 7] } : Ndarray).data.length
        ∧ ∀ x ∈ box.low.data, x = 0 :=
  gym_space_lower_bound_zero [("grid", { shape := [2], data := [5, 7] })]
    "grid" { shape := [2], data := [5, 7] } (by simp)

/-- A Python value compared against an `Observation`: either another
`Observation` or a value of any other type. -/
inductive PyValue where
  | obs : Observation → PyValue
  | other : Nat → PyValue

/-- The result of a Python rich comparison: a boolean, or the
`NotImplemented` sentinel. -/
inductive PyEqResult where
  | bool : Bool → PyEqResult
  | notImplemented : PyEqResult
deriving DecidableEq

/-- `Observation.__eq__` from `observation.py`: structural comparison of
`grid` and `agent` when the other value is an `Observation`, otherwise the
`NotImplemented` sentinel. -/
def Observation.py_eq (self : Observation) (other : PyValue) : PyEqResult :=
  match other with
  | .obs o =>
      .bool (decide (self.grid = o.grid) && decide (self.agent = o.agent))
  | .other _ => .notImplemented

/-- C10: observation equality is structural and component-wise, and
comparison with a value of any other type returns `NotImplemented` rather
than a boolean or an error. -/
theorem observation_eq_structural (a b : Observation) (x : Nat) :
    (a.py_eq (.obs b) = .bool true ↔ a.grid = b.grid ∧ a.agent = b.agent)
    ∧ a.py_eq (.other x) = .notImplemented := by
  constructor
  · simp [Observation.py_eq]
  · rfl

end GV
